import Mathlib

/-!
Verification of the Triqui (tic-tac-toe) genetic-algorithm trainer.

Shallow embedding of the repository sources:
  src/logica/tablero.py                    (TableroTriqui)
  src/logica/ia.py                         (IAConPesos)
  src/logica/algoritmo_genetico/individuo.py (EstrategiaDeJuego)
  src/logica/algoritmo_genetico/motor_ag.py  (AlgoritmoGenetico)

Python boards are lists of nine cells holding " ", "X" or "O"; here a cell
is an `Option Marca` with `none` for the empty cell.  All randomness of the
Python code (`random.random`, `random.randint`, `random.choice`) is made
explicit: every function that draws randomness takes the outcomes of its
draws as arguments, so each theorem quantifies over every possible outcome
of the random draws.
-/

namespace Triqui

/-- Marks that a player can place, mirroring the strings "X" and "O". -/
inductive Marca
  | X
  | O
deriving DecidableEq, Repr

/-- One board cell: `none` is the empty cell " ". -/
abbrev Celda := Option Marca

/-- Board state: the `lista_celdas` field of `TableroTriqui` (nine cells). -/
abbrev Tablero := List Celda

/-- Embeds `obtener_marca_contraria` from src/logica/ia.py. -/
def obtener_marca_contraria (marca_actual : Marca) : Marca :=
  match marca_actual with
  | .X => .O
  | .O => .X

/-- Embeds the `lista_lineas_ganadoras` field of `TableroTriqui`:
rows, then columns, then the two diagonals. -/
def lista_lineas_ganadoras : List (Nat × Nat × Nat) :=
  [(0, 1, 2), (3, 4, 5), (6, 7, 8),
   (0, 3, 6), (1, 4, 7), (2, 5, 8),
   (0, 4, 8), (2, 4, 6)]

/-- Reads cell `i` of a board (the Python `lista_celdas[i]` on a 9-cell list). -/
def celda (t : Tablero) (i : Nat) : Celda :=
  t.getD i none

/-- Embeds `TableroTriqui.obtener_movimientos_disponibles`: indices of the
empty cells, ascending. -/
def obtener_movimientos_disponibles (t : Tablero) : List Nat :=
  (List.range 9).filter (fun i => celda t i == none)

/-- Embeds `TableroTriqui.colocar_marca_en_posicion`: rejects an index outside
[0,8] and a non-empty target cell, otherwise sets the cell.  Returns the
Python boolean together with the (possibly updated) board, since the Python
method mutates `self`. -/
def colocar_marca_en_posicion (t : Tablero) (marca : Marca) (indice_posicion : Int) :
    Bool × Tablero :=
  if indice_posicion < 0 ∨ 8 < indice_posicion then (false, t)
  else if celda t indice_posicion.toNat ≠ none then (false, t)
  else (true, t.set indice_posicion.toNat (some marca))

/-- Embeds `TableroTriqui.esta_lleno_el_tablero`. -/
def esta_lleno_el_tablero (t : Tablero) : Bool :=
  (List.range 9).all (fun i => !(celda t i == none))

/-- Result of `TableroTriqui.obtener_ganador`: a winning mark, the draw value
"D", or `sigue` for Python's `None` (game continues). -/
inductive Resultado
  | marca (m : Marca)
  | empate
  | sigue
deriving DecidableEq, Repr

/-- Checks one winning line the way the loop body of `obtener_ganador` does:
the three cells are equal and non-empty, in which case the shared mark is
returned. -/
def marca_de_linea (t : Tablero) (linea : Nat × Nat × Nat) : Option Marca :=
  match celda t linea.1, celda t linea.2.1, celda t linea.2.2 with
  | some a, some b, some c => if a = b ∧ b = c then some a else none
  | _, _, _ => none

/-- Embeds the scanning loop of `obtener_ganador`: first matched line wins. -/
def buscar_linea_ganadora (t : Tablero) : List (Nat × Nat × Nat) → Option Marca
  | [] => none
  | linea :: resto =>
    match marca_de_linea t linea with
    | some m => some m
    | none => buscar_linea_ganadora t resto

/-- Embeds `TableroTriqui.obtener_ganador`. -/
def obtener_ganador (t : Tablero) : Resultado :=
  match buscar_linea_ganadora t lista_lineas_ganadoras with
  | some m => .marca m
  | none => if esta_lleno_el_tablero t then .empate else .sigue

/-- Genome weights: the `diccionario_pesos` of `EstrategiaDeJuego`
(src/logica/algoritmo_genetico/individuo.py), seven named integer genes. -/
structure DiccionarioPesos where
  peso_ganar : Int
  peso_bloquear : Int
  peso_centro : Int
  peso_esquina : Int
  peso_lado : Int
  peso_fork : Int
  peso_bloquear_fork : Int
deriving DecidableEq, Repr

/-- Keys of the weight dictionary, one per gene. -/
inductive ClaveGen
  | ganar
  | bloquear
  | centro
  | esquina
  | lado
  | fork
  | bloquear_fork
deriving DecidableEq, Repr

/-- Dictionary lookup `diccionario_pesos[clave]`. -/
def pesoDe (p : DiccionarioPesos) : ClaveGen → Int
  | .ganar => p.peso_ganar
  | .bloquear => p.peso_bloquear
  | .centro => p.peso_centro
  | .esquina => p.peso_esquina
  | .lado => p.peso_lado
  | .fork => p.peso_fork
  | .bloquear_fork => p.peso_bloquear_fork

/-- Builds a weight dictionary gene by gene (the Python dict comprehension
over the seven keys). -/
def pesosDesdeFuncion (f : ClaveGen → Int) : DiccionarioPesos :=
  ⟨f .ganar, f .bloquear, f .centro, f .esquina, f .lado, f .fork, f .bloquear_fork⟩

/-- Embeds `IAConPesos.contar_dos_en_linea`: lines holding exactly two cells
of the target mark and exactly one empty cell. -/
def contar_dos_en_linea (t : Tablero) (marca_objetivo : Marca) : Nat :=
  lista_lineas_ganadoras.countP (fun linea =>
    let valores := [celda t linea.1, celda t linea.2.1, celda t linea.2.2]
    valores.count (some marca_objetivo) == 2 && valores.count none == 1)

/-- Embeds `IAConPesos.contar_forks` (an alias of `contar_dos_en_linea`). -/
def contar_forks (t : Tablero) (marca_objetivo : Marca) : Nat :=
  contar_dos_en_linea t marca_objetivo

/-- Embeds `IAConPesos.contar_forks_potenciales_del_rival`: total forks the
rival could create with one move. -/
def contar_forks_potenciales_del_rival (t : Tablero) (marca_del_rival : Marca) : Nat :=
  (obtener_movimientos_disponibles t).foldl
    (fun acc i => acc + contar_forks (colocar_marca_en_posicion t marca_del_rival ↑i).2 marca_del_rival)
    0

/-- FACTOR 1 of `IAConPesos.puntuar_movimiento`: immediate win bonus. -/
def factor_ganar (pesos : DiccionarioPesos) (t : Tablero) (mi_marca : Marca) (i : Nat) : Int :=
  if obtener_ganador (colocar_marca_en_posicion t mi_marca ↑i).2 = .marca mi_marca then
    10 * pesos.peso_ganar
  else 0

/-- Rival-can-win scan used twice by FACTOR 2 of `puntuar_movimiento`: does
some available move give the rival an immediate win? -/
def rival_tiene_victoria_inmediata (t : Tablero) (marca_del_rival : Marca) : Bool :=
  (obtener_movimientos_disponibles t).any (fun r =>
    obtener_ganador (colocar_marca_en_posicion t marca_del_rival ↑r).2 == .marca marca_del_rival)

/-- FACTOR 2 of `puntuar_movimiento`: bonus for removing the rival's
immediate win. -/
def factor_bloquear (pesos : DiccionarioPesos) (t : Tablero) (mi_marca marca_del_rival : Marca)
    (i : Nat) : Int :=
  if rival_tiene_victoria_inmediata t marca_del_rival then
    if rival_tiene_victoria_inmediata (colocar_marca_en_posicion t mi_marca ↑i).2 marca_del_rival then 0
    else 8 * pesos.peso_bloquear
  else 0

/-- FACTOR 3 of `puntuar_movimiento`: positional bonuses for the centre, the
corners and the sides. -/
def factor_posicion (pesos : DiccionarioPesos) (i : Nat) : Int :=
  (if i = 4 then pesos.peso_centro else 0) +
  (if i ∈ [0, 2, 6, 8] then pesos.peso_esquina else 0) +
  (if i ∈ [1, 3, 5, 7] then pesos.peso_lado else 0)

/-- FACTOR 4 of `puntuar_movimiento`: own forks created by the move. -/
def factor_fork (pesos : DiccionarioPesos) (t : Tablero) (mi_marca : Marca) (i : Nat) : Int :=
  let cantidad_forks_propios := contar_forks (colocar_marca_en_posicion t mi_marca ↑i).2 mi_marca
  if 1 ≤ cantidad_forks_propios then (cantidad_forks_propios : Int) * pesos.peso_fork else 0

/-- FACTOR 5 of `puntuar_movimiento`: bonus for reducing the rival's
potential forks. -/
def factor_bloquear_fork (pesos : DiccionarioPesos) (t : Tablero) (mi_marca marca_del_rival : Marca)
    (i : Nat) : Int :=
  let forks_rival_antes := contar_forks_potenciales_del_rival t marca_del_rival
  if 1 ≤ forks_rival_antes then
    if contar_forks_potenciales_del_rival (colocar_marca_en_posicion t mi_marca ↑i).2 marca_del_rival
        < forks_rival_antes then
      pesos.peso_bloquear_fork
    else 0
  else 0

/-- Embeds `IAConPesos.puntuar_movimiento`: the five factors accumulated into
`puntaje_total`. -/
def puntuar_movimiento (pesos : DiccionarioPesos) (t : Tablero) (mi_marca marca_del_rival : Marca)
    (i : Nat) : Int :=
  factor_ganar pesos t mi_marca i +
  factor_bloquear pesos t mi_marca marca_del_rival i +
  factor_posicion pesos i +
  factor_fork pesos t mi_marca i +
  factor_bloquear_fork pesos t mi_marca marca_del_rival i

/-- Embeds the best-score loop of `IAConPesos.elegir_movimiento`: the running
best score (`mejor_puntaje_encontrado`, starting as Python `None`) and the
accumulated list of best moves. -/
def bucle_mejores (f : Nat → Int) : List Nat → Option Int → List Nat → Option Int × List Nat
  | [], mejor, acc => (mejor, acc)
  | i :: resto, mejor, acc =>
    let puntaje := f i
    match mejor with
    | none => bucle_mejores f resto (some puntaje) [i]
    | some m =>
      if m < puntaje then bucle_mejores f resto (some puntaje) [i]
      else if puntaje = m then bucle_mejores f resto (some m) (acc ++ [i])
      else bucle_mejores f resto (some m) acc

/-- List `lista_mejores_movimientos` computed inside `elegir_movimiento`:
all available moves tied for the maximal score. -/
def lista_mejores_movimientos (pesos : DiccionarioPesos) (t : Tablero) (mi_marca : Marca) :
    List Nat :=
  (bucle_mejores (puntuar_movimiento pesos t mi_marca (obtener_marca_contraria mi_marca))
    (obtener_movimientos_disponibles t) none []).2

/-- Embeds `IAConPesos.elegir_movimiento`.  The Python code ends with
`random.choice(lista_mejores_movimientos)`; the random draw is passed in as
`eligeAlAzar`, a function that picks one element of a non-empty list. -/
def elegir_movimiento (pesos : DiccionarioPesos) (t : Tablero) (mi_marca : Marca)
    (eligeAlAzar : List Nat → Nat) : Int :=
  if obtener_movimientos_disponibles t = [] then -1
  else ↑(eligeAlAzar (lista_mejores_movimientos pesos t mi_marca))

/-- Embeds `EstrategiaDeJuego` (src/logica/algoritmo_genetico/individuo.py):
a weight dictionary plus the fitness scalar `aptitud_obtenida`. -/
structure EstrategiaDeJuego where
  diccionario_pesos : DiccionarioPesos
  aptitud_obtenida : ℚ
deriving DecidableEq

/-- Embeds `EstrategiaDeJuego.__init__` called with an explicit weight
dictionary: the weights are copied (Python coerces them with `int`, the
identity here since genes are already integers) and the fitness starts at
0.0. -/
def nuevaEstrategia (diccionario : DiccionarioPesos) : EstrategiaDeJuego :=
  { diccionario_pesos := diccionario, aptitud_obtenida := 0 }

/-- Embeds `EstrategiaDeJuego.clonar_estrategia`:
`EstrategiaDeJuego(self.diccionario_pesos)`. -/
def clonar_estrategia (e : EstrategiaDeJuego) : EstrategiaDeJuego :=
  nuevaEstrategia e.diccionario_pesos

/-- Clamping applied by `mutar_estrategia` to a mutated gene: first raise to
0, then cap at 10 (the two sequential `if` statements of the source). -/
def limitar_gen (nuevo_valor : Int) : Int :=
  let acotado_abajo := if nuevo_valor < 0 then 0 else nuevo_valor
  if 10 < acotado_abajo then 10 else acotado_abajo

/-- Embeds `EstrategiaDeJuego.mutar_estrategia`.  Per gene, the Python code
draws `random.random() < probabilidad_mutacion` (outcome passed in as
`muta`) and, when true, `random.randint(-amplitud, amplitud)` (outcome
passed in as `variaciones`), then clamps the sum into [0,10]. -/
def mutar_estrategia (e : EstrategiaDeJuego) (muta : ClaveGen → Bool)
    (variaciones : ClaveGen → Int) : EstrategiaDeJuego :=
  { e with diccionario_pesos := pesosDesdeFuncion (fun clave =>
      if muta clave then limitar_gen (pesoDe e.diccionario_pesos clave + variaciones clave)
      else pesoDe e.diccionario_pesos clave) }

/-- Embeds `EstrategiaDeJuego.cruzar_con_estrategia`: uniform crossover, one
coin flip per gene (outcomes passed in as `monedas`; `true` inherits from
`self`, `false` from the other parent), then `EstrategiaDeJuego(pesos_hijo)`. -/
def cruzar_con_estrategia (e otra_estrategia : EstrategiaDeJuego)
    (monedas : ClaveGen → Bool) : EstrategiaDeJuego :=
  nuevaEstrategia (pesosDesdeFuncion (fun clave =>
    if monedas clave then pesoDe e.diccionario_pesos clave
    else pesoDe otra_estrategia.diccionario_pesos clave))

/-- Configuration fields of `AlgoritmoGenetico.__init__`
(src/logica/algoritmo_genetico/motor_ag.py).  The Python constructor stores
the four values without any validation. -/
structure ConfiguracionAG where
  tamano_poblacion : Int
  total_generaciones : Int
  probabilidad_mutacion : ℚ
  cantidad_elite : Int
deriving DecidableEq

/-- One entry of `historial_de_entrenamiento`: generation number (1-based),
best fitness so far, average fitness of the generation. -/
structure RegistroGeneracion where
  generacion : Int
  mejor : ℚ
  promedio : ℚ
deriving DecidableEq

/-- Mutable state of `AlgoritmoGenetico` besides the configuration. -/
structure EstadoAG where
  lista_poblacion : List EstrategiaDeJuego
  mejor_estrategia_encontrada : Option EstrategiaDeJuego
  mejor_aptitud_encontrada : ℚ
  historial_de_entrenamiento : List RegistroGeneracion
deriving DecidableEq

/-- Random draws consumed while producing one offspring in
`construir_siguiente_generacion`: the three `random.choice` indices of each
of the two tournaments, the crossover coins and the mutation draws. -/
structure SorteoHijo where
  torneo_a : Fin 3 → Nat
  torneo_b : Fin 3 → Nat
  monedas : ClaveGen → Bool
  muta : ClaveGen → Bool
  variaciones : ClaveGen → Int

/-- Random draws consumed by one generation: the fitness that
`evaluar_estrategia_contra_aleatorio` (games against the random opponent)
returns for the individual at each position, and the draws of each
offspring, indexed by its position in the new population. -/
structure SorteosGeneracion where
  aptitudes : Nat → ℚ
  hijos : Nat → SorteoHijo

/-- Random draws of a whole training run: the random initial genomes and the
per-generation draws. -/
structure SorteosEntrenamiento where
  iniciales : Nat → DiccionarioPesos
  generaciones : Nat → SorteosGeneracion

/-- Embeds `AlgoritmoGenetico.iniciar_poblacion_inicial`: `tamano_poblacion`
freshly randomized individuals (their random genomes are the `iniciales`
draws). -/
def iniciar_poblacion_inicial (cfg : ConfiguracionAG) (s : SorteosEntrenamiento) :
    List EstrategiaDeJuego :=
  (List.range cfg.tamano_poblacion.toNat).map (fun k => nuevaEstrategia (s.iniciales k))

/-- Evaluation loop of `evaluar_poblacion_actual`: walks the population,
stores each individual's freshly computed fitness, and updates the
best-ever clone and best-ever fitness. -/
def bucle_evaluar (aptitudes : Nat → ℚ) (idx : Nat) (mejor : Option EstrategiaDeJuego)
    (mejor_aptitud : ℚ) :
    List EstrategiaDeJuego → List EstrategiaDeJuego × Option EstrategiaDeJuego × ℚ
  | [] => ([], mejor, mejor_aptitud)
  | e :: resto =>
    let evaluado := { e with aptitud_obtenida := aptitudes idx }
    let actualizado :=
      if mejor = none ∨ mejor_aptitud < evaluado.aptitud_obtenida then
        (some (clonar_estrategia evaluado), evaluado.aptitud_obtenida)
      else (mejor, mejor_aptitud)
    let (resto_evaluado, mejor_final, aptitud_final) :=
      bucle_evaluar aptitudes (idx + 1) actualizado.1 actualizado.2 resto
    (evaluado :: resto_evaluado, mejor_final, aptitud_final)

/-- Embeds `AlgoritmoGenetico.evaluar_poblacion_actual`. -/
def evaluar_poblacion_actual (estado : EstadoAG) (aptitudes : Nat → ℚ) : EstadoAG :=
  let resultado := bucle_evaluar aptitudes 0 estado.mejor_estrategia_encontrada
    estado.mejor_aptitud_encontrada estado.lista_poblacion
  { estado with
    lista_poblacion := resultado.1
    mejor_estrategia_encontrada := resultado.2.1
    mejor_aptitud_encontrada := resultado.2.2 }

/-- Embeds `random.choice(self.lista_poblacion)`: the uniform draw is an
arbitrary natural number reduced modulo the population size. -/
def eleccionDePoblacion (poblacion : List EstrategiaDeJuego) (r : Nat) : EstrategiaDeJuego :=
  poblacion.getD (r % poblacion.length) (nuevaEstrategia ⟨0, 0, 0, 0, 0, 0, 0⟩)

/-- Embeds `AlgoritmoGenetico.seleccionar_progenitor_por_torneo`: three random
candidates, keep the first-encountered one of maximal fitness. -/
def seleccionar_progenitor_por_torneo (poblacion : List EstrategiaDeJuego)
    (sorteo : Fin 3 → Nat) : EstrategiaDeJuego :=
  let candidato_0 := eleccionDePoblacion poblacion (sorteo 0)
  let candidato_1 := eleccionDePoblacion poblacion (sorteo 1)
  let candidato_2 := eleccionDePoblacion poblacion (sorteo 2)
  let mejor_candidato :=
    if candidato_0.aptitud_obtenida < candidato_1.aptitud_obtenida then candidato_1
    else candidato_0
  if mejor_candidato.aptitud_obtenida < candidato_2.aptitud_obtenida then candidato_2
  else mejor_candidato

/-- One offspring of the reproduction loop: two tournament parents, uniform
crossover, mutation with amplitude 3. -/
def generar_hijo (poblacion : List EstrategiaDeJuego) (d : SorteoHijo) : EstrategiaDeJuego :=
  let progenitor_a := seleccionar_progenitor_por_torneo poblacion d.torneo_a
  let progenitor_b := seleccionar_progenitor_por_torneo poblacion d.torneo_b
  mutar_estrategia (cruzar_con_estrategia progenitor_a progenitor_b d.monedas)
    d.muta d.variaciones

/-- Stable descending insertion used to embed Python's stable
`sorted(..., key=aptitud, reverse=True)`: an element already in place stays
ahead only when its fitness is strictly greater. -/
def insertar_por_aptitud (x : EstrategiaDeJuego) :
    List EstrategiaDeJuego → List EstrategiaDeJuego
  | [] => [x]
  | y :: resto =>
    if x.aptitud_obtenida < y.aptitud_obtenida then y :: insertar_por_aptitud x resto
    else x :: y :: resto

/-- Stable sort by fitness, descending (Python
`sorted(self.lista_poblacion, key=lambda e: e.aptitud_obtenida, reverse=True)`). -/
def ordenar_por_aptitud_descendente : List EstrategiaDeJuego → List EstrategiaDeJuego
  | [] => []
  | x :: resto => insertar_por_aptitud x (ordenar_por_aptitud_descendente resto)

/-- Reproduction loop of `construir_siguiente_generacion`: keep appending
offspring while the new population is below `tamano_poblacion`.  The loop
adds one element per iteration, so running it with `tamano_poblacion.toNat`
iterations of fuel (`combustible`) reproduces the Python `while` exactly. -/
def bucle_reproduccion (cfg : ConfiguracionAG) (poblacion : List EstrategiaDeJuego)
    (hijos : Nat → SorteoHijo) :
    Nat → List EstrategiaDeJuego → List EstrategiaDeJuego
  | 0, nueva_poblacion => nueva_poblacion
  | combustible + 1, nueva_poblacion =>
    if nueva_poblacion.length < cfg.tamano_poblacion.toNat then
      bucle_reproduccion cfg poblacion hijos combustible
        (nueva_poblacion ++ [generar_hijo poblacion (hijos nueva_poblacion.length)])
    else nueva_poblacion

/-- Embeds `AlgoritmoGenetico.construir_siguiente_generacion`: sort by fitness
descending, clone the elite prefix, then fill with offspring. -/
def construir_siguiente_generacion (cfg : ConfiguracionAG)
    (poblacion : List EstrategiaDeJuego) (hijos : Nat → SorteoHijo) :
    List EstrategiaDeJuego :=
  let poblacion_ordenada := ordenar_por_aptitud_descendente poblacion
  let elites := (poblacion_ordenada.take cfg.cantidad_elite.toNat).map clonar_estrategia
  bucle_reproduccion cfg poblacion hijos cfg.tamano_poblacion.toNat elites

/-- One iteration of the generational loop of `ejecutar_entrenamiento`:
evaluate, compute the average fitness (Python raises `ZeroDivisionError`
when the population is empty, embedded as `none`), append the training
record, and build the next generation unless this is the last one. -/
def paso_generacion (cfg : ConfiguracionAG) (estado : EstadoAG) (generacion_actual : Nat)
    (es_ultima : Bool) (s : SorteosGeneracion) : Option EstadoAG :=
  let evaluado := evaluar_poblacion_actual estado s.aptitudes
  if evaluado.lista_poblacion.length = 0 then none
  else
    let suma_aptitudes := (evaluado.lista_poblacion.map (·.aptitud_obtenida)).sum
    let aptitud_promedio := suma_aptitudes / (evaluado.lista_poblacion.length : ℚ)
    let registrado := { evaluado with
      historial_de_entrenamiento := evaluado.historial_de_entrenamiento ++
        [⟨(generacion_actual : Int) + 1, evaluado.mejor_aptitud_encontrada, aptitud_promedio⟩] }
    some (if es_ultima then registrado
      else { registrado with
        lista_poblacion := construir_siguiente_generacion cfg registrado.lista_poblacion s.hijos })

/-- Generational while-loop of `ejecutar_entrenamiento`, running
`restantes` more generations; the reproduction step is skipped exactly on
the last one (`generacion_actual < total_generaciones - 1` in Python). -/
def bucle_generaciones (cfg : ConfiguracionAG) (s : SorteosEntrenamiento) :
    Nat → Nat → EstadoAG → Option EstadoAG
  | _, 0, estado => some estado
  | generacion_actual, restantes + 1, estado =>
    match paso_generacion cfg estado generacion_actual (restantes == 0)
        (s.generaciones generacion_actual) with
    | none => none
    | some siguiente => bucle_generaciones cfg s (generacion_actual + 1) restantes siguiente

/-- Embeds `AlgoritmoGenetico.ejecutar_entrenamiento`: build the initial
population, then run `total_generaciones` generations.  The result is
`none` when a `ZeroDivisionError` is raised inside the loop. -/
def ejecutar_entrenamiento (cfg : ConfiguracionAG) (s : SorteosEntrenamiento) :
    Option EstadoAG :=
  bucle_generaciones cfg s 0 cfg.total_generaciones.toNat
    { lista_poblacion := iniciar_poblacion_inicial cfg s
      mejor_estrategia_encontrada := none
      mejor_aptitud_encontrada := 0
      historial_de_entrenamiento := [] }

/-! Specification-side definitions (written from the spec's words, for the
refinement claims) and concrete inputs used by the individual claims. -/

/-- Genomes whose seven genes are all non-negative (in particular every
genome respecting the documented range [0,10]). -/
def PesosNoNegativos (p : DiccionarioPesos) : Prop :=
  ∀ clave, 0 ≤ pesoDe p clave

/-- Upper bound on the score a move that does NOT win immediately can reach:
the block bonus plus the positional bonuses plus at most eight own threats
plus the fork-block bonus. -/
def cota_factores_sin_ganar (p : DiccionarioPesos) : Int :=
  8 * p.peso_bloquear + p.peso_centro + p.peso_esquina + p.peso_lado +
    8 * p.peso_fork + p.peso_bloquear_fork

/-- Upper bound on the score a move that neither wins immediately nor defuses
the rival's immediate win can reach. -/
def cota_factores_sin_ganar_ni_bloquear (p : DiccionarioPesos) : Int :=
  p.peso_centro + p.peso_esquina + p.peso_lado + 8 * p.peso_fork + p.peso_bloquear_fork

/-- Modelled from the spec: the three rows of the board. -/
def filas : List (Nat × Nat × Nat) := [(0, 1, 2), (3, 4, 5), (6, 7, 8)]

/-- Modelled from the spec: the three columns of the board. -/
def columnas : List (Nat × Nat × Nat) := [(0, 3, 6), (1, 4, 7), (2, 5, 8)]

/-- Modelled from the spec: the two diagonals of the board. -/
def diagonales : List (Nat × Nat × Nat) := [(0, 4, 8), (2, 4, 6)]

/-- Winner function as the spec words it: scan rows, then columns, then the
two diagonals, return the mark of the first fully-matched non-empty line;
else Draw on a full board; else no result yet. -/
def especificacion_ganador (t : Tablero) : Resultado :=
  match (filas ++ columnas ++ diagonales).findSome? (marca_de_linea t) with
  | some m => .marca m
  | none => if esta_lleno_el_tablero t then .empate else .sigue

/-- Own-threat component as the spec words it: threat count times the fork
gene, plus a further `fork * 2` premium when the count is at least two. -/
def especificacion_amenaza_propia (pesos : DiccionarioPesos) (cantidad : Nat) : Int :=
  (cantidad : Int) * pesos.peso_fork + (if 2 ≤ cantidad then pesos.peso_fork * 2 else 0)

/-- Board `[X,X,_,O,O,_,_,_,_]` of the deterministic win scenario. -/
def tabla1 : Tablero :=
  [some .X, some .X, none, some .O, some .O, none, none, none, none]

/-- Board `[_,_,_,O,O,_,_,_,_]` of the deterministic block scenario. -/
def tabla2 : Tablero :=
  [none, none, none, some .O, some .O, none, none, none, none]

/-- Board `[_,X,_,X,_,_,_,_,_]`: placing X at index 0 creates exactly two
own threats (lines 0-1-2 and 0-3-6). -/
def tablaC4 : Tablero :=
  [none, some .X, none, some .X, none, none, none, none, none]

/-- Fully occupied board with no completed line (a draw). -/
def tablaEmpate : Tablero :=
  [some .X, some .O, some .X, some .X, some .O, some .O, some .O, some .X, some .X]

/-- Empty board. -/
def tablaVacia : Tablero := List.replicate 9 (none : Celda)

/-- Genome with only the fork gene set: a weight assignment under which the
weighted scorer prefers threat-creating moves over the immediate win. -/
def pesosCE1 : DiccionarioPesos := ⟨0, 0, 0, 0, 0, 10, 0⟩

/-- Genome with only the corner gene set: a weight assignment under which the
weighted scorer prefers corners over the forced block. -/
def pesosCE2 : DiccionarioPesos := ⟨0, 0, 0, 10, 0, 0, 0⟩

/-- Genome whose win gene dominates all other attainable bonuses. -/
def pesosP1 : DiccionarioPesos := ⟨10, 1, 1, 1, 1, 1, 1⟩

/-- Genome whose block gene dominates the non-block bonuses. -/
def pesosP2 : DiccionarioPesos := ⟨1, 10, 1, 1, 1, 1, 1⟩

/-- Genome with only the fork gene set to 1, isolating the own-threat
component of the score. -/
def pesosC4 : DiccionarioPesos := ⟨0, 0, 0, 0, 0, 1, 0⟩

/-- Constant outcome draws for one offspring. -/
def sorteoHijoConstante : SorteoHijo :=
  ⟨fun _ => 0, fun _ => 0, fun _ => true, fun _ => false, fun _ => 0⟩

/-- Constant outcome draws for a whole training run. -/
def sorteosConstantes : SorteosEntrenamiento :=
  ⟨fun _ => ⟨5, 5, 5, 5, 5, 5, 5⟩, fun _ => ⟨fun _ => 0, fun _ => sorteoHijoConstante⟩⟩

/-- Invalid configuration of the C3 scenario: population size 0, one
generation (the remaining fields keep the constructor defaults). -/
def configuracionInvalida : ConfiguracionAG := ⟨0, 1, 1 / 10, 12⟩

/-- Small valid configuration: population 2, two generations, one elite. -/
def configuracionPequena : ConfiguracionAG := ⟨2, 2, 1 / 2, 1⟩

/-- Engine state with one unevaluated individual and no best-ever snapshot. -/
def estadoUnIndividuo : EstadoAG :=
  { lista_poblacion := [nuevaEstrategia ⟨1, 2, 3, 4, 5, 6, 7⟩]
    mejor_estrategia_encontrada := none
    mejor_aptitud_encontrada := 0
    historial_de_entrenamiento := [] }

/-! Helper lemmas. -/

theorem pesoDe_pesosDesdeFuncion (f : ClaveGen → Int) (clave : ClaveGen) :
    pesoDe (pesosDesdeFuncion f) clave = f clave := by
  cases clave <;> rfl

theorem limitar_gen_mem (v : Int) : 0 ≤ limitar_gen v ∧ limitar_gen v ≤ 10 := by
  simp only [limitar_gen]
  split_ifs <;> omega

/-- Invariant of the best-score loop once the running best is set: the
accumulated list is non-empty, all its members score exactly the running
best, the final best dominates every remaining move and never decreases. -/
theorem bucle_mejores_spec (f : Nat → Int) (P : Nat → Prop) :
    ∀ (l : List Nat) (m : Int) (acc : List Nat),
      (∀ x ∈ l, P x) → acc ≠ [] → (∀ x ∈ acc, P x) → (∀ x ∈ acc, f x = m) →
      ∃ m', (bucle_mejores f l (some m) acc).1 = some m' ∧
        (bucle_mejores f l (some m) acc).2 ≠ [] ∧
        (∀ x ∈ (bucle_mejores f l (some m) acc).2, P x ∧ f x = m') ∧
        m ≤ m' ∧ ∀ j ∈ l, f j ≤ m' := by
  intro l
  induction l with
  | nil =>
    intro m acc _ hne hP hval
    exact ⟨m, rfl, hne, fun x hx => ⟨hP x hx, hval x hx⟩, le_refl m, by simp⟩
  | cons i resto ih =>
    intro m acc hl hne hP hval
    have hlresto : ∀ x ∈ resto, P x := fun x hx => hl x (List.mem_cons_of_mem i hx)
    have hPi : P i := hl i (List.mem_cons_self i resto)
    by_cases hlt : m < f i
    · have h := ih (f i) [i] hlresto (by simp) (by simpa using hPi) (by simp)
      obtain ⟨m', h1, h2, h3, h4, h5⟩ := h
      refine ⟨m', ?_, ?_, ?_, ?_, ?_⟩
      · simpa [bucle_mejores, hlt] using h1
      · simpa [bucle_mejores, hlt] using h2
      · intro x hx
        exact h3 x (by simpa [bucle_mejores, hlt] using hx)
      · omega
      · intro j hj
        rcases List.mem_cons.mp hj with hj | hj
        · subst hj; exact h4
        · exact h5 j hj
    · by_cases heq : f i = m
      · have h := ih m (acc ++ [i]) hlresto (by simp)
          (by intro x hx
              rcases List.mem_append.mp hx with hx | hx
              · exact hP x hx
              · simp at hx; subst hx; exact hPi)
          (by intro x hx
              rcases List.mem_append.mp hx with hx | hx
              · exact hval x hx
              · simp at hx; subst hx; exact heq)
        obtain ⟨m', h1, h2, h3, h4, h5⟩ := h
        refine ⟨m', ?_, ?_, ?_, h4, ?_⟩
        · simpa [bucle_mejores, hlt, heq] using h1
        · simpa [bucle_mejores, hlt, heq] using h2
        · intro x hx
          exact h3 x (by simpa [bucle_mejores, hlt, heq] using hx)
        · intro j hj
          rcases List.mem_cons.mp hj with hj | hj
          · subst hj; omega
          · exact h5 j hj
      · have h := ih m acc hlresto hne hP hval
        obtain ⟨m', h1, h2, h3, h4, h5⟩ := h
        refine ⟨m', ?_, ?_, ?_, h4, ?_⟩
        · simpa [bucle_mejores, hlt, heq] using h1
        · simpa [bucle_mejores, hlt, heq] using h2
        · intro x hx
          exact h3 x (by simpa [bucle_mejores, hlt, heq] using hx)
        · intro j hj
          rcases List.mem_cons.mp hj with hj | hj
          · subst hj; omega
          · exact h5 j hj

/-- Starting from Python's initial `None` best score, the best-move list is a
non-empty subset of the processed moves, and each of its members scores at
least as much as every processed move. -/
theorem bucle_mejores_none_spec (f : Nat → Int) (movs : List Nat) (hne : movs ≠ []) :
    (bucle_mejores f movs none []).2 ≠ [] ∧
    ∀ x ∈ (bucle_mejores f movs none []).2, x ∈ movs ∧ ∀ j ∈ movs, f j ≤ f x := by
  rcases movs with _ | ⟨i, resto⟩
  · exact absurd rfl hne
  · have hpaso : bucle_mejores f (i :: resto) none [] =
        bucle_mejores f resto (some (f i)) [i] := rfl
    have h := bucle_mejores_spec f (fun x => x ∈ i :: resto) resto (f i) [i]
      (fun x hx => List.mem_cons_of_mem i hx) (by simp)
      (by intro x hx; simp at hx; simp [hx])
      (by simp)
    obtain ⟨m', _, h2, h3, h4, h5⟩ := h
    rw [hpaso]
    refine ⟨h2, ?_⟩
    intro x hx
    obtain ⟨hxP, hxv⟩ := h3 x hx
    refine ⟨hxP, ?_⟩
    intro j hj
    rcases List.mem_cons.mp hj with hj | hj
    · subst hj; omega
    · have := h5 j hj; omega

/-- Dominance principle: when some available move satisfies `B` and every
available move outside `B` scores strictly less than it, all best moves
satisfy `B`. -/
theorem lista_mejores_en_buenos (pesos : DiccionarioPesos) (t : Tablero) (mi_marca : Marca)
    (B : Nat → Prop) (b : Nat)
    (hb : b ∈ obtener_movimientos_disponibles t)
    (hsep : ∀ j ∈ obtener_movimientos_disponibles t, ¬ B j →
      puntuar_movimiento pesos t mi_marca (obtener_marca_contraria mi_marca) j <
      puntuar_movimiento pesos t mi_marca (obtener_marca_contraria mi_marca) b) :
    ∀ x ∈ lista_mejores_movimientos pesos t mi_marca, B x := by
  intro x hx
  have hne : obtener_movimientos_disponibles t ≠ [] := List.ne_nil_of_mem hb
  obtain ⟨-, hmax⟩ := bucle_mejores_none_spec
    (puntuar_movimiento pesos t mi_marca (obtener_marca_contraria mi_marca))
    (obtener_movimientos_disponibles t) hne
  obtain ⟨hxm, hge⟩ := hmax x hx
  by_contra hBx
  have h1 := hge b hb
  have h2 := hsep x hxm hBx
  omega

theorem factor_ganar_nonneg (pesos : DiccionarioPesos) (t : Tablero) (mi_marca : Marca)
    (i : Nat) (hp : PesosNoNegativos pesos) : 0 ≤ factor_ganar pesos t mi_marca i := by
  have := hp .ganar
  simp only [pesoDe] at this
  unfold factor_ganar
  split <;> omega

theorem factor_ganar_of_gana (pesos : DiccionarioPesos) (t : Tablero) (mi_marca : Marca)
    (i : Nat)
    (h : obtener_ganador (colocar_marca_en_posicion t mi_marca ↑i).2 = .marca mi_marca) :
    factor_ganar pesos t mi_marca i = 10 * pesos.peso_ganar := by
  unfold factor_ganar
  rw [if_pos h]

theorem factor_ganar_of_no_gana (pesos : DiccionarioPesos) (t : Tablero) (mi_marca : Marca)
    (i : Nat)
    (h : obtener_ganador (colocar_marca_en_posicion t mi_marca ↑i).2 ≠ .marca mi_marca) :
    factor_ganar pesos t mi_marca i = 0 := by
  unfold factor_ganar
  rw [if_neg h]

theorem factor_bloquear_bounds (pesos : DiccionarioPesos) (t : Tablero)
    (mi_marca marca_del_rival : Marca) (i : Nat) (hp : PesosNoNegativos pesos) :
    0 ≤ factor_bloquear pesos t mi_marca marca_del_rival i ∧
    factor_bloquear pesos t mi_marca marca_del_rival i ≤ 8 * pesos.peso_bloquear := by
  have := hp .bloquear
  simp only [pesoDe] at this
  unfold factor_bloquear
  split_ifs <;> omega

theorem factor_bloquear_of_bloqueo (pesos : DiccionarioPesos) (t : Tablero)
    (mi_marca marca_del_rival : Marca) (i : Nat)
    (h1 : rival_tiene_victoria_inmediata t marca_del_rival = true)
    (h2 : rival_tiene_victoria_inmediata (colocar_marca_en_posicion t mi_marca ↑i).2
      marca_del_rival = false) :
    factor_bloquear pesos t mi_marca marca_del_rival i = 8 * pesos.peso_bloquear := by
  unfold factor_bloquear
  rw [if_pos h1, if_neg (by simp [h2])]

theorem factor_bloquear_of_no_bloqueo (pesos : DiccionarioPesos) (t : Tablero)
    (mi_marca marca_del_rival : Marca) (i : Nat)
    (h2 : rival_tiene_victoria_inmediata (colocar_marca_en_posicion t mi_marca ↑i).2
      marca_del_rival = true) :
    factor_bloquear pesos t mi_marca marca_del_rival i = 0 := by
  simp [factor_bloquear, h2]

theorem factor_posicion_bounds (pesos : DiccionarioPesos) (i : Nat)
    (hp : PesosNoNegativos pesos) :
    0 ≤ factor_posicion pesos i ∧
    factor_posicion pesos i ≤ pesos.peso_centro + pesos.peso_esquina + pesos.peso_lado := by
  have h1 := hp .centro
  have h2 := hp .esquina
  have h3 := hp .lado
  simp only [pesoDe] at h1 h2 h3
  unfold factor_posicion
  split_ifs <;> omega

theorem contar_dos_en_linea_le (t : Tablero) (marca_objetivo : Marca) :
    contar_dos_en_linea t marca_objetivo ≤ 8 := by
  have h := List.countP_le_length (l := lista_lineas_ganadoras)
    (p := fun linea =>
      let valores := [celda t linea.1, celda t linea.2.1, celda t linea.2.2]
      valores.count (some marca_objetivo) == 2 && valores.count none == 1)
  simpa [lista_lineas_ganadoras] using h

theorem factor_fork_bounds (pesos : DiccionarioPesos) (t : Tablero) (mi_marca : Marca)
    (i : Nat) (hp : PesosNoNegativos pesos) :
    0 ≤ factor_fork pesos t mi_marca i ∧
    factor_fork pesos t mi_marca i ≤ 8 * pesos.peso_fork := by
  have hw := hp .fork
  simp only [pesoDe] at hw
  have hc := contar_dos_en_linea_le (colocar_marca_en_posicion t mi_marca ↑i).2 mi_marca
  have hcI : ((contar_dos_en_linea (colocar_marca_en_posicion t mi_marca ↑i).2 mi_marca : Int)) ≤ 8 := by
    exact_mod_cast hc
  have hc0 : (0 : Int) ≤
      ((contar_dos_en_linea (colocar_marca_en_posicion t mi_marca ↑i).2 mi_marca : Int)) :=
    Int.natCast_nonneg _
  simp only [factor_fork, contar_forks]
  split_ifs with h
  · exact ⟨mul_nonneg hc0 hw, mul_le_mul_of_nonneg_right hcI hw⟩
  · exact ⟨le_refl 0, by omega⟩

theorem factor_bloquear_fork_bounds (pesos : DiccionarioPesos) (t : Tablero)
    (mi_marca marca_del_rival : Marca) (i : Nat) (hp : PesosNoNegativos pesos) :
    0 ≤ factor_bloquear_fork pesos t mi_marca marca_del_rival i ∧
    factor_bloquear_fork pesos t mi_marca marca_del_rival i ≤ pesos.peso_bloquear_fork := by
  have := hp .bloquear_fork
  simp only [pesoDe] at this
  simp only [factor_bloquear_fork]
  split_ifs <;> omega

/-- Score of a move that wins immediately: at least `10 * peso_ganar`. -/
theorem puntuar_ge_de_gana (pesos : DiccionarioPesos) (t : Tablero)
    (mi_marca marca_del_rival : Marca) (i : Nat) (hp : PesosNoNegativos pesos)
    (h : obtener_ganador (colocar_marca_en_posicion t mi_marca ↑i).2 = .marca mi_marca) :
    10 * pesos.peso_ganar ≤ puntuar_movimiento pesos t mi_marca marca_del_rival i := by
  have h1 := factor_ganar_of_gana pesos t mi_marca i h
  have h2 := factor_bloquear_bounds pesos t mi_marca marca_del_rival i hp
  have h3 := factor_posicion_bounds pesos i hp
  have h4 := factor_fork_bounds pesos t mi_marca i hp
  have h5 := factor_bloquear_fork_bounds pesos t mi_marca marca_del_rival i hp
  unfold puntuar_movimiento
  omega

/-- Score of a move that does not win immediately: at most the bound
`cota_factores_sin_ganar`. -/
theorem puntuar_le_sin_ganar (pesos : DiccionarioPesos) (t : Tablero)
    (mi_marca marca_del_rival : Marca) (i : Nat) (hp : PesosNoNegativos pesos)
    (h : obtener_ganador (colocar_marca_en_posicion t mi_marca ↑i).2 ≠ .marca mi_marca) :
    puntuar_movimiento pesos t mi_marca marca_del_rival i ≤ cota_factores_sin_ganar pesos := by
  have h1 := factor_ganar_of_no_gana pesos t mi_marca i h
  have h2 := factor_bloquear_bounds pesos t mi_marca marca_del_rival i hp
  have h3 := factor_posicion_bounds pesos i hp
  have h4 := factor_fork_bounds pesos t mi_marca i hp
  have h5 := factor_bloquear_fork_bounds pesos t mi_marca marca_del_rival i hp
  unfold puntuar_movimiento cota_factores_sin_ganar
  omega

/-- Score of a move that defuses the rival's immediate win: at least
`8 * peso_bloquear`. -/
theorem puntuar_ge_de_bloqueo (pesos : DiccionarioPesos) (t : Tablero)
    (mi_marca marca_del_rival : Marca) (i : Nat) (hp : PesosNoNegativos pesos)
    (h1 : rival_tiene_victoria_inmediata t marca_del_rival = true)
    (h2 : rival_tiene_victoria_inmediata (colocar_marca_en_posicion t mi_marca ↑i).2
      marca_del_rival = false) :
    8 * pesos.peso_bloquear ≤ puntuar_movimiento pesos t mi_marca marca_del_rival i := by
  have hb := factor_bloquear_of_bloqueo pesos t mi_marca marca_del_rival i h1 h2
  have hg : 0 ≤ factor_ganar pesos t mi_marca i := factor_ganar_nonneg pesos t mi_marca i hp
  have h3 := factor_posicion_bounds pesos i hp
  have h4 := factor_fork_bounds pesos t mi_marca i hp
  have h5 := factor_bloquear_fork_bounds pesos t mi_marca marca_del_rival i hp
  unfold puntuar_movimiento
  omega

/-- Score of a move that neither wins immediately nor defuses the rival's
immediate win: at most the bound `cota_factores_sin_ganar_ni_bloquear`. -/
theorem puntuar_le_sin_ganar_ni_bloquear (pesos : DiccionarioPesos) (t : Tablero)
    (mi_marca marca_del_rival : Marca) (i : Nat) (hp : PesosNoNegativos pesos)
    (hg : obtener_ganador (colocar_marca_en_posicion t mi_marca ↑i).2 ≠ .marca mi_marca)
    (hb : rival_tiene_victoria_inmediata (colocar_marca_en_posicion t mi_marca ↑i).2
      marca_del_rival = true) :
    puntuar_movimiento pesos t mi_marca marca_del_rival i ≤
      cota_factores_sin_ganar_ni_bloquear pesos := by
  have h1 := factor_ganar_of_no_gana pesos t mi_marca i hg
  have h2 := factor_bloquear_of_no_bloqueo pesos t mi_marca marca_del_rival i hb
  have h3 := factor_posicion_bounds pesos i hp
  have h4 := factor_fork_bounds pesos t mi_marca i hp
  have h5 := factor_bloquear_fork_bounds pesos t mi_marca marca_del_rival i hp
  unfold puntuar_movimiento cota_factores_sin_ganar_ni_bloquear
  omega

theorem buscar_linea_ganadora_eq_findSome (t : Tablero) :
    ∀ l : List (Nat × Nat × Nat),
      buscar_linea_ganadora t l = l.findSome? (marca_de_linea t) := by
  intro l
  induction l with
  | nil => rfl
  | cons linea resto ih =>
    simp only [buscar_linea_ganadora, List.findSome?]
    cases marca_de_linea t linea <;> simp [ih]

theorem buscar_linea_ganadora_none (t : Tablero) :
    ∀ l : List (Nat × Nat × Nat), (∀ linea ∈ l, marca_de_linea t linea = none) →
      buscar_linea_ganadora t l = none := by
  intro l
  induction l with
  | nil => intro _; rfl
  | cons linea resto ih =>
    intro h
    have h1 : marca_de_linea t linea = none := h linea (List.mem_cons_self linea resto)
    simp only [buscar_linea_ganadora, h1]
    exact ih (fun x hx => h x (List.mem_cons_of_mem linea hx))

theorem bucle_evaluar_longitud (aptitudes : Nat → ℚ) :
    ∀ (l : List EstrategiaDeJuego) (idx : Nat) (mejor : Option EstrategiaDeJuego)
      (mejor_aptitud : ℚ),
      (bucle_evaluar aptitudes idx mejor mejor_aptitud l).1.length = l.length := by
  intro l
  induction l with
  | nil => intro idx mejor ma; rfl
  | cons e resto ih =>
    intro idx mejor ma
    simp only [bucle_evaluar]
    simp [ih]

theorem evaluar_poblacion_longitud (estado : EstadoAG) (aptitudes : Nat → ℚ) :
    (evaluar_poblacion_actual estado aptitudes).lista_poblacion.length =
      estado.lista_poblacion.length := by
  unfold evaluar_poblacion_actual
  simp [bucle_evaluar_longitud]

/-- Tracked best-ever preservation: if the incoming best is absent or has
fitness 0 (a clone), the best after the evaluation loop also is. -/
theorem bucle_evaluar_mejor_cero (aptitudes : Nat → ℚ) :
    ∀ (l : List EstrategiaDeJuego) (idx : Nat) (mejor : Option EstrategiaDeJuego)
      (mejor_aptitud : ℚ),
      (∀ e', mejor = some e' → e'.aptitud_obtenida = 0) →
      ∀ e', (bucle_evaluar aptitudes idx mejor mejor_aptitud l).2.1 = some e' →
        e'.aptitud_obtenida = 0 := by
  intro l
  induction l with
  | nil =>
    intro idx mejor ma h e' he'
    exact h e' he'
  | cons e resto ih =>
    intro idx mejor ma h e' he'
    simp only [bucle_evaluar] at he'
    split at he'
    · refine ih (idx + 1) _ _ ?_ e' he'
      intro x hx
      simp at hx
      rw [← hx]
      rfl
    · exact ih (idx + 1) _ _ h e' he'

theorem insertar_por_aptitud_longitud (x : EstrategiaDeJuego) :
    ∀ l : List EstrategiaDeJuego, (insertar_por_aptitud x l).length = l.length + 1 := by
  intro l
  induction l with
  | nil => rfl
  | cons y resto ih =>
    simp only [insertar_por_aptitud]
    split
    · simp [ih]
    · simp

theorem ordenar_por_aptitud_longitud :
    ∀ l : List EstrategiaDeJuego, (ordenar_por_aptitud_descendente l).length = l.length := by
  intro l
  induction l with
  | nil => rfl
  | cons x resto ih =>
    simp only [ordenar_por_aptitud_descendente]
    rw [insertar_por_aptitud_longitud, ih]
    rfl

theorem bucle_reproduccion_longitud (cfg : ConfiguracionAG)
    (poblacion : List EstrategiaDeJuego) (hijos : Nat → SorteoHijo) :
    ∀ (combustible : Nat) (nueva : List EstrategiaDeJuego),
      nueva.length ≤ cfg.tamano_poblacion.toNat →
      cfg.tamano_poblacion.toNat ≤ nueva.length + combustible →
      (bucle_reproduccion cfg poblacion hijos combustible nueva).length =
        cfg.tamano_poblacion.toNat := by
  intro combustible
  induction combustible with
  | zero =>
    intro nueva h hk
    simp only [bucle_reproduccion]
    omega
  | succ k ih =>
    intro nueva h hk
    simp only [bucle_reproduccion]
    split
    · apply ih
      · simp only [List.length_append, List.length_cons, List.length_nil]
        omega
      · simp only [List.length_append, List.length_cons, List.length_nil]
        omega
    · omega

theorem construir_siguiente_longitud (cfg : ConfiguracionAG)
    (poblacion : List EstrategiaDeJuego) (hijos : Nat → SorteoHijo)
    (h : poblacion.length = cfg.tamano_poblacion.toNat) :
    (construir_siguiente_generacion cfg poblacion hijos).length =
      cfg.tamano_poblacion.toNat := by
  unfold construir_siguiente_generacion
  apply bucle_reproduccion_longitud cfg poblacion hijos
  · simp only [List.length_map, List.length_take, ordenar_por_aptitud_longitud]
    omega
  · simp only [List.length_map]
    omega

theorem paso_generacion_longitud (cfg : ConfiguracionAG) (estado : EstadoAG)
    (generacion_actual : Nat) (es_ultima : Bool) (sg : SorteosGeneracion) (e' : EstadoAG)
    (hlen : estado.lista_poblacion.length = cfg.tamano_poblacion.toNat)
    (hpaso : paso_generacion cfg estado generacion_actual es_ultima sg = some e') :
    e'.lista_poblacion.length = cfg.tamano_poblacion.toNat := by
  have heval : (evaluar_poblacion_actual estado sg.aptitudes).lista_poblacion.length =
      cfg.tamano_poblacion.toNat := by
    rw [evaluar_poblacion_longitud]; exact hlen
  simp only [paso_generacion] at hpaso
  by_cases h0 : (evaluar_poblacion_actual estado sg.aptitudes).lista_poblacion.length = 0
  · rw [if_pos h0] at hpaso
    exact absurd hpaso (by simp)
  · rw [if_neg h0] at hpaso
    have he := (Option.some_inj.mp hpaso).symm
    subst he
    split
    · exact heval
    · exact construir_siguiente_longitud cfg _ sg.hijos heval

theorem bucle_generaciones_longitud (cfg : ConfiguracionAG) (s : SorteosEntrenamiento) :
    ∀ (restantes generacion_actual : Nat) (estado : EstadoAG) (e' : EstadoAG),
      estado.lista_poblacion.length = cfg.tamano_poblacion.toNat →
      bucle_generaciones cfg s generacion_actual restantes estado = some e' →
      e'.lista_poblacion.length = cfg.tamano_poblacion.toNat := by
  intro restantes
  induction restantes with
  | zero =>
    intro g estado e' hlen h
    simp only [bucle_generaciones, Option.some_inj] at h
    subst h
    exact hlen
  | succ r ih =>
    intro g estado e' hlen h
    simp only [bucle_generaciones] at h
    split at h
    · exact absurd h (by simp)
    · rename_i siguiente hsig
      exact ih (g + 1) siguiente e'
        (paso_generacion_longitud cfg estado g (r == 0) (s.generaciones g) siguiente hlen hsig) h

/-! Claim theorems. -/

/-- C5: for every board, mark, and integer index, `colocar_marca_en_posicion`
returns failure and leaves all nine cells unchanged if and only if the index
is outside [0,8] or the target cell is non-empty; otherwise it sets exactly
that one cell to the given mark and returns success. -/
theorem colocar_marca_en_posicion_correcto :
    ∀ (t : Tablero) (marca : Marca) (i : Int), t.length = 9 →
      (((colocar_marca_en_posicion t marca i).1 = false ∧
        (colocar_marca_en_posicion t marca i).2 = t) ↔
        (i < 0 ∨ 8 < i ∨ celda t i.toNat ≠ none)) ∧
      ((0 ≤ i ∧ i ≤ 8 ∧ celda t i.toNat = none) →
        (colocar_marca_en_posicion t marca i).1 = true ∧
        (colocar_marca_en_posicion t marca i).2 = t.set i.toNat (some marca)) := by
  intro t marca i h9
  unfold colocar_marca_en_posicion
  by_cases h1 : i < 0 ∨ 8 < i
  · rw [if_pos h1]
    constructor
    · constructor
      · intro _
        rcases h1 with h1 | h1
        · exact Or.inl h1
        · exact Or.inr (Or.inl h1)
      · intro _
        exact ⟨rfl, rfl⟩
    · intro hc
      obtain ⟨ha, hb, -⟩ := hc
      exact absurd h1 (by omega)
  · rw [if_neg h1]
    by_cases h2 : celda t i.toNat ≠ none
    · rw [if_pos h2]
      constructor
      · constructor
        · intro _
          exact Or.inr (Or.inr h2)
        · intro _
          exact ⟨rfl, rfl⟩
      · intro h
        exact absurd h.2.2 h2
    · rw [if_neg h2]
      push_neg at h2
      constructor
      · constructor
        · intro h
          exact absurd h.1 (by simp)
        · intro h
          rcases h with h | h | h
          · exact absurd h (by omega)
          · exact absurd h (by omega)
          · exact absurd h2 h
      · intro _
        exact ⟨rfl, rfl⟩

/-- C5 witness: on the empty board, placing at the out-of-range index 9
fails and leaves the board unchanged, and placing X at the free index 4
succeeds and sets exactly that cell. -/
theorem colocar_marca_en_posicion_correcto_witness :
    ((colocar_marca_en_posicion tablaVacia .X 9).1 = false ∧
      (colocar_marca_en_posicion tablaVacia .X 9).2 = tablaVacia) ∧
    ((colocar_marca_en_posicion tablaVacia .X 4).1 = true ∧
      (colocar_marca_en_posicion tablaVacia .X 4).2 = tablaVacia.set 4 (some .X)) :=
  ⟨(colocar_marca_en_posicion_correcto tablaVacia .X 9 (by decide)).1.mpr (by decide),
   (colocar_marca_en_posicion_correcto tablaVacia .X 4 (by decide)).2 (by decide)⟩

/-- C9: `obtener_ganador` scans the 8 win-lines in the fixed order rows,
columns, diagonals and returns the mark of the first fully-matched non-empty
line; with no matched line it returns the draw value exactly on a full
board, else the no-result value; in particular a fully occupied board with
no completed line yields the draw value. -/
theorem obtener_ganador_segun_especificacion :
    ∀ t : Tablero,
      obtener_ganador t = especificacion_ganador t ∧
      (esta_lleno_el_tablero t = true →
        (∀ linea ∈ lista_lineas_ganadoras, marca_de_linea t linea = none) →
        obtener_ganador t = .empate) := by
  intro t
  constructor
  · unfold obtener_ganador especificacion_ganador
    rw [buscar_linea_ganadora_eq_findSome]
    rfl
  · intro hlleno hnone
    unfold obtener_ganador
    rw [buscar_linea_ganadora_none t _ hnone]
    simp [hlleno]

/-- C9 witness: on a concrete fully occupied board with no completed line,
the winner scan yields the draw value. -/
theorem obtener_ganador_segun_especificacion_witness :
    obtener_ganador tablaEmpate = .empate :=
  (obtener_ganador_segun_especificacion tablaEmpate).2 (by decide) (by decide)

/-- C6: mutation keeps every gene of a [0,10]-ranged strategy inside [0,10],
for every mutation probability (every outcome of the per-gene mutation
draws), every amplitude at least 0, and every outcome of the variation
draws within that amplitude. -/
theorem mutar_estrategia_conserva_rango :
    ∀ (e : EstrategiaDeJuego) (amplitud : Int) (muta : ClaveGen → Bool)
      (variaciones : ClaveGen → Int),
      0 ≤ amplitud →
      (∀ clave, 0 ≤ pesoDe e.diccionario_pesos clave ∧ pesoDe e.diccionario_pesos clave ≤ 10) →
      (∀ clave, -amplitud ≤ variaciones clave ∧ variaciones clave ≤ amplitud) →
      ∀ clave, 0 ≤ pesoDe (mutar_estrategia e muta variaciones).diccionario_pesos clave ∧
        pesoDe (mutar_estrategia e muta variaciones).diccionario_pesos clave ≤ 10 := by
  intro e amplitud muta variaciones _ hrango _ clave
  unfold mutar_estrategia
  rw [pesoDe_pesosDesdeFuncion]
  by_cases h : muta clave = true
  · rw [if_pos h]
    exact limitar_gen_mem _
  · rw [if_neg h]
    exact hrango clave

/-- C6 witness: mutating the all-fives genome with amplitude 3, every gene
forced to mutate and every variation drawn as +3, keeps the win gene in
[0,10]. -/
theorem mutar_estrategia_conserva_rango_witness :
    0 ≤ pesoDe (mutar_estrategia (nuevaEstrategia ⟨5, 5, 5, 5, 5, 5, 5⟩)
      (fun _ => true) (fun _ => 3)).diccionario_pesos .ganar ∧
    pesoDe (mutar_estrategia (nuevaEstrategia ⟨5, 5, 5, 5, 5, 5, 5⟩)
      (fun _ => true) (fun _ => 3)).diccionario_pesos .ganar ≤ 10 :=
  mutar_estrategia_conserva_rango (nuevaEstrategia ⟨5, 5, 5, 5, 5, 5, 5⟩) 3
    (fun _ => true) (fun _ => 3) (by decide)
    (by intro clave; cases clave <;> exact ⟨by decide, by decide⟩)
    (by intro clave; cases clave <;> exact ⟨by decide, by decide⟩) .ganar

/-- C7: every gene of a crossover child equals the corresponding gene of one
of the two parents, for every outcome of the per-gene coin flips. -/
theorem cruzar_con_estrategia_gen_de_un_padre :
    ∀ (a b : EstrategiaDeJuego) (monedas : ClaveGen → Bool) (clave : ClaveGen),
      pesoDe (cruzar_con_estrategia a b monedas).diccionario_pesos clave =
        pesoDe a.diccionario_pesos clave ∨
      pesoDe (cruzar_con_estrategia a b monedas).diccionario_pesos clave =
        pesoDe b.diccionario_pesos clave := by
  intro a b monedas clave
  unfold cruzar_con_estrategia nuevaEstrategia
  rw [pesoDe_pesosDesdeFuncion]
  by_cases h : monedas clave = true
  · rw [if_pos h]
    exact Or.inl rfl
  · rw [if_neg h]
    exact Or.inr rfl

/-- C4 (amended): the own-threat component of a move's score equals the
post-move two-in-line count times the fork gene; the code adds no further
`fork * 2` double-threat premium. -/
theorem amenaza_propia_sin_premio_doble :
    ∀ (pesos : DiccionarioPesos) (t : Tablero) (mi_marca marca_del_rival : Marca) (i : Nat),
      puntuar_movimiento pesos t mi_marca marca_del_rival i =
        factor_ganar pesos t mi_marca i +
        factor_bloquear pesos t mi_marca marca_del_rival i +
        factor_posicion pesos i +
        (contar_dos_en_linea (colocar_marca_en_posicion t mi_marca ↑i).2 mi_marca : Int) *
          pesos.peso_fork +
        factor_bloquear_fork pesos t mi_marca marca_del_rival i := by
  intro pesos t mi_marca marca_del_rival i
  unfold puntuar_movimiento
  congr 2
  simp only [factor_fork, contar_forks]
  split_ifs with h
  · rfl
  · have h0 : contar_dos_en_linea (colocar_marca_en_posicion t mi_marca ↑i).2 mi_marca = 0 := by
      omega
    rw [h0]
    simp

/-- C4 counterexample: on the board `[_,X,_,X,_,_,_,_,_]` with the fork gene
1 and all other genes 0, placing X at index 0 creates exactly two threats;
the code's component (and the whole score) is 2, while the spec formula
with the `fork * 2` premium gives 4. -/
theorem premio_doble_amenaza_contraejemplo :
    contar_dos_en_linea (colocar_marca_en_posicion tablaC4 .X 0).2 .X = 2 ∧
    factor_fork pesosC4 tablaC4 .X 0 = 2 ∧
    puntuar_movimiento pesosC4 tablaC4 .X .O 0 = 2 ∧
    especificacion_amenaza_propia pesosC4
      (contar_dos_en_linea (colocar_marca_en_posicion tablaC4 .X 0).2 .X) = 4 ∧
    factor_fork pesosC4 tablaC4 .X 0 ≠ especificacion_amenaza_propia pesosC4
      (contar_dos_en_linea (colocar_marca_en_posicion tablaC4 .X 0).2 .X) := by
  decide

/-- C10: cloning copies the seven gene weights but always resets the fitness
field to 0; consequently the best-ever snapshot stored by the evaluation
phase (always a clone) never carries the fitness of the individual it was
cloned from. -/
theorem clonar_estrategia_reinicia_aptitud :
    (∀ e : EstrategiaDeJuego,
      (clonar_estrategia e).diccionario_pesos = e.diccionario_pesos ∧
      (clonar_estrategia e).aptitud_obtenida = 0) ∧
    (∀ (estado : EstadoAG) (aptitudes : Nat → ℚ),
      (∀ e', estado.mejor_estrategia_encontrada = some e' → e'.aptitud_obtenida = 0) →
      ∀ e', (evaluar_poblacion_actual estado aptitudes).mejor_estrategia_encontrada = some e' →
        e'.aptitud_obtenida = 0) := by
  constructor
  · intro e
    exact ⟨rfl, rfl⟩
  · intro estado aptitudes h e' he'
    exact bucle_evaluar_mejor_cero aptitudes estado.lista_poblacion 0
      estado.mejor_estrategia_encontrada estado.mejor_aptitud_encontrada h e' he'

/-- C10 witness: evaluating a one-individual population whose fitness draw
is 5 stores a best-ever snapshot whose fitness field is 0. -/
theorem clonar_estrategia_reinicia_aptitud_witness :
    ((evaluar_poblacion_actual estadoUnIndividuo (fun _ => 5)).mejor_estrategia_encontrada.getD
      (nuevaEstrategia ⟨0, 0, 0, 0, 0, 0, 0⟩)).aptitud_obtenida = 0 := by
  cases hm : (evaluar_poblacion_actual estadoUnIndividuo
      (fun _ => 5)).mejor_estrategia_encontrada with
  | none => exact absurd hm (by decide)
  | some e =>
    simp only [Option.getD_some]
    exact clonar_estrategia_reinicia_aptitud.2 estadoUnIndividuo (fun _ => 5)
      (fun e' h => by simp [estadoUnIndividuo] at h) e hm

/-- C3: the engine performs no configuration validation: with population size
0 and one generation, the constructor and `iniciar_poblacion_inicial` accept
the configuration (building an empty population with no configuration
error), and the run then aborts with a `ZeroDivisionError` (embedded as
`none`) at the average-fitness computation inside the first generation of
the loop, contradicting the claimed fail-fast rejection. -/
theorem entrenamiento_sin_validacion_division_por_cero :
    iniciar_poblacion_inicial configuracionInvalida sorteosConstantes = [] ∧
    ejecutar_entrenamiento configuracionInvalida sorteosConstantes = none := by
  constructor
  · rfl
  · rfl

/-- C8: under a valid configuration (positive population size, elite count at
most the population size) the population length equals the configured size
after the initial construction, after every single generation step
(including its reproduction), and at the end of any run of the generational
loop that started from a population of the configured size. -/
theorem poblacion_conserva_tamano :
    (∀ (cfg : ConfiguracionAG) (s : SorteosEntrenamiento),
      0 < cfg.tamano_poblacion → cfg.cantidad_elite ≤ cfg.tamano_poblacion →
      (iniciar_poblacion_inicial cfg s).length = cfg.tamano_poblacion.toNat) ∧
    (∀ (cfg : ConfiguracionAG) (estado : EstadoAG) (generacion_actual : Nat)
      (es_ultima : Bool) (sg : SorteosGeneracion) (e' : EstadoAG),
      0 < cfg.tamano_poblacion → cfg.cantidad_elite ≤ cfg.tamano_poblacion →
      estado.lista_poblacion.length = cfg.tamano_poblacion.toNat →
      paso_generacion cfg estado generacion_actual es_ultima sg = some e' →
      e'.lista_poblacion.length = cfg.tamano_poblacion.toNat) ∧
    (∀ (cfg : ConfiguracionAG) (s : SorteosEntrenamiento) (generacion_actual restantes : Nat)
      (estado : EstadoAG) (e' : EstadoAG),
      0 < cfg.tamano_poblacion → cfg.cantidad_elite ≤ cfg.tamano_poblacion →
      estado.lista_poblacion.length = cfg.tamano_poblacion.toNat →
      bucle_generaciones cfg s generacion_actual restantes estado = some e' →
      e'.lista_poblacion.length = cfg.tamano_poblacion.toNat) := by
  refine ⟨?_, ?_, ?_⟩
  · intro cfg s _ _
    unfold iniciar_poblacion_inicial
    simp
  · intro cfg estado g u sg e' _ _ hlen hpaso
    exact paso_generacion_longitud cfg estado g u sg e' hlen hpaso
  · intro cfg s g r estado e' _ _ hlen h
    exact bucle_generaciones_longitud cfg s r g estado e' hlen h

/-- C8 witness: a full two-generation run with population 2 and one elite
ends with a population of exactly 2 individuals. -/
theorem poblacion_conserva_tamano_witness :
    (ejecutar_entrenamiento configuracionPequena sorteosConstantes).map
      (fun e => e.lista_poblacion.length) = some 2 := by
  cases h : ejecutar_entrenamiento configuracionPequena sorteosConstantes with
  | none => exact absurd h (by decide)
  | some e' =>
    simp only [Option.map_some']
    rw [Option.some_inj]
    exact poblacion_conserva_tamano.2.2 configuracionPequena sorteosConstantes 0
      (configuracionPequena.total_generaciones.toNat)
      { lista_poblacion := iniciar_poblacion_inicial configuracionPequena sorteosConstantes
        mejor_estrategia_encontrada := none
        mejor_aptitud_encontrada := 0
        historial_de_entrenamiento := [] } e'
      (by decide) (by decide) (by decide) h

/-- C1 (amended): whenever some legal move wins immediately for `mi_marca`
and the genome's weights are non-negative with `10 * peso_ganar` strictly
above the bound every non-winning move can reach, `elegir_movimiento`
returns a winning move, for every outcome of the tie-break draw; in
particular, on `[X,X,_,O,O,_,_,_,_]` with X to move and such a genome it
returns index 2.  (Without the dominance condition the claim fails: see the
counterexample.) -/
theorem elegir_movimiento_gana_si_peso_ganar_domina :
    (∀ (pesos : DiccionarioPesos) (t : Tablero) (mi_marca : Marca)
      (eligeAlAzar : List Nat → Nat) (w : Nat),
      PesosNoNegativos pesos →
      cota_factores_sin_ganar pesos < 10 * pesos.peso_ganar →
      w ∈ obtener_movimientos_disponibles t →
      obtener_ganador (colocar_marca_en_posicion t mi_marca ↑w).2 = .marca mi_marca →
      eligeAlAzar (lista_mejores_movimientos pesos t mi_marca) ∈
        lista_mejores_movimientos pesos t mi_marca →
      elegir_movimiento pesos t mi_marca eligeAlAzar =
        ↑(eligeAlAzar (lista_mejores_movimientos pesos t mi_marca)) ∧
      obtener_ganador
        (colocar_marca_en_posicion t mi_marca
          ↑(eligeAlAzar (lista_mejores_movimientos pesos t mi_marca))).2 = .marca mi_marca) ∧
    (∀ eligeAlAzar : List Nat → Nat,
      eligeAlAzar (lista_mejores_movimientos pesosP1 tabla1 .X) ∈
        lista_mejores_movimientos pesosP1 tabla1 .X →
      elegir_movimiento pesosP1 tabla1 .X eligeAlAzar = 2) := by
  constructor
  · intro pesos t mi_marca eligeAlAzar w hp hcota hw hgana hpick
    have hne : obtener_movimientos_disponibles t ≠ [] := List.ne_nil_of_mem hw
    constructor
    · unfold elegir_movimiento
      rw [if_neg hne]
    · refine lista_mejores_en_buenos pesos t mi_marca
        (fun j => obtener_ganador (colocar_marca_en_posicion t mi_marca ↑j).2 = .marca mi_marca)
        w hw ?_ _ hpick
      intro j hj hBj
      have h1 := puntuar_le_sin_ganar pesos t mi_marca (obtener_marca_contraria mi_marca) j hp hBj
      have h2 := puntuar_ge_de_gana pesos t mi_marca (obtener_marca_contraria mi_marca) w hp hgana
      omega
  · intro eligeAlAzar hpick
    have hm : lista_mejores_movimientos pesosP1 tabla1 .X = [2] := by decide
    rw [hm] at hpick
    simp at hpick
    unfold elegir_movimiento
    rw [if_neg (by decide), hm, hpick]
    rfl

/-- C1 counterexample: on `[X,X,_,O,O,_,_,_,_]` with X to move, index 2 is a
legal immediately-winning move, yet under the genome with only the fork gene
set the best-move list is `[5,6,7,8]`: the winning move is excluded and
every outcome of the tie-break returns a non-winning move (for instance 5). -/
theorem elegir_movimiento_no_gana_contraejemplo :
    (2 ∈ obtener_movimientos_disponibles tabla1) ∧
    obtener_ganador (colocar_marca_en_posicion tabla1 .X 2).2 = .marca .X ∧
    lista_mejores_movimientos pesosCE1 tabla1 .X = [5, 6, 7, 8] ∧
    2 ∉ lista_mejores_movimientos pesosCE1 tabla1 .X ∧
    elegir_movimiento pesosCE1 tabla1 .X (fun l => l.headD 0) = 5 ∧
    obtener_ganador (colocar_marca_en_posicion tabla1 .X 5).2 ≠ .marca .X := by
  decide

/-- C1 witness: concrete instance of the dominance theorem on the board
`[X,X,_,O,O,_,_,_,_]` with the genome `⟨10,1,1,1,1,1,1⟩`; the chosen move is
index 2 and it wins. -/
theorem elegir_movimiento_gana_si_peso_ganar_domina_witness :
    (elegir_movimiento pesosP1 tabla1 .X (fun l => l.headD 0) =
      ↑((fun l : List Nat => l.headD 0) (lista_mejores_movimientos pesosP1 tabla1 .X)) ∧
      obtener_ganador (colocar_marca_en_posicion tabla1 .X
        ↑((fun l : List Nat => l.headD 0) (lista_mejores_movimientos pesosP1 tabla1 .X))).2 =
        .marca .X) ∧
    elegir_movimiento pesosP1 tabla1 .X (fun l => l.headD 0) = 2 :=
  ⟨elegir_movimiento_gana_si_peso_ganar_domina.1 pesosP1 tabla1 .X (fun l => l.headD 0) 2
      (by intro clave; cases clave <;> decide) (by decide) (by decide) (by decide) (by decide),
   elegir_movimiento_gana_si_peso_ganar_domina.2 (fun l => l.headD 0) (by decide)⟩

/-- C2 (amended): when `mi_marca` has no immediate winning move, the rival
has an immediate winning move, some legal move defuses it, and the genome's
weights are non-negative with `8 * peso_bloquear` strictly above the bound
every non-defusing move can reach, `elegir_movimiento` returns a defusing
move, for every outcome of the tie-break draw; in particular, on
`[_,_,_,O,O,_,_,_,_]` with X to move and such a genome it returns index 5.
(Without the dominance condition the claim fails: see the counterexample.) -/
theorem elegir_movimiento_bloquea_si_peso_bloquear_domina :
    (∀ (pesos : DiccionarioPesos) (t : Tablero) (mi_marca : Marca)
      (eligeAlAzar : List Nat → Nat) (b : Nat),
      PesosNoNegativos pesos →
      cota_factores_sin_ganar_ni_bloquear pesos < 8 * pesos.peso_bloquear →
      (∀ j ∈ obtener_movimientos_disponibles t,
        obtener_ganador (colocar_marca_en_posicion t mi_marca ↑j).2 ≠ .marca mi_marca) →
      rival_tiene_victoria_inmediata t (obtener_marca_contraria mi_marca) = true →
      b ∈ obtener_movimientos_disponibles t →
      rival_tiene_victoria_inmediata (colocar_marca_en_posicion t mi_marca ↑b).2
        (obtener_marca_contraria mi_marca) = false →
      eligeAlAzar (lista_mejores_movimientos pesos t mi_marca) ∈
        lista_mejores_movimientos pesos t mi_marca →
      elegir_movimiento pesos t mi_marca eligeAlAzar =
        ↑(eligeAlAzar (lista_mejores_movimientos pesos t mi_marca)) ∧
      rival_tiene_victoria_inmediata
        (colocar_marca_en_posicion t mi_marca
          ↑(eligeAlAzar (lista_mejores_movimientos pesos t mi_marca))).2
        (obtener_marca_contraria mi_marca) = false) ∧
    (∀ eligeAlAzar : List Nat → Nat,
      eligeAlAzar (lista_mejores_movimientos pesosP2 tabla2 .X) ∈
        lista_mejores_movimientos pesosP2 tabla2 .X →
      elegir_movimiento pesosP2 tabla2 .X eligeAlAzar = 5) := by
  constructor
  · intro pesos t mi_marca eligeAlAzar b hp hcota hnogana hrival hb hbloquea hpick
    have hne : obtener_movimientos_disponibles t ≠ [] := List.ne_nil_of_mem hb
    constructor
    · unfold elegir_movimiento
      rw [if_neg hne]
    · refine lista_mejores_en_buenos pesos t mi_marca
        (fun j => rival_tiene_victoria_inmediata (colocar_marca_en_posicion t mi_marca ↑j).2
          (obtener_marca_contraria mi_marca) = false)
        b hb ?_ _ hpick
      intro j hj hBj
      simp only [Bool.not_eq_false] at hBj
      have h1 := puntuar_le_sin_ganar_ni_bloquear pesos t mi_marca
        (obtener_marca_contraria mi_marca) j hp (hnogana j hj) hBj
      have h2 := puntuar_ge_de_bloqueo pesos t mi_marca
        (obtener_marca_contraria mi_marca) b hp hrival hbloquea
      omega
  · intro eligeAlAzar hpick
    have hm : lista_mejores_movimientos pesosP2 tabla2 .X = [5] := by decide
    rw [hm] at hpick
    simp at hpick
    unfold elegir_movimiento
    rw [if_neg (by decide), hm, hpick]
    rfl

/-- C2 counterexample: on `[_,_,_,O,O,_,_,_,_]` with X to move, X has no
immediate win, O threatens to win (index 5 is the only defusing move), yet
under the genome with only the corner gene set the best-move list is
`[0,2,6,8]`: the defusing move is excluded and every outcome of the
tie-break leaves the threat alive (for instance index 0). -/
theorem elegir_movimiento_no_bloquea_contraejemplo :
    (obtener_movimientos_disponibles tabla2).all
      (fun j => obtener_ganador (colocar_marca_en_posicion tabla2 .X ↑j).2 !=
        Resultado.marca .X) = true ∧
    rival_tiene_victoria_inmediata tabla2 .O = true ∧
    (5 ∈ obtener_movimientos_disponibles tabla2) ∧
    rival_tiene_victoria_inmediata (colocar_marca_en_posicion tabla2 .X 5).2 .O = false ∧
    lista_mejores_movimientos pesosCE2 tabla2 .X = [0, 2, 6, 8] ∧
    5 ∉ lista_mejores_movimientos pesosCE2 tabla2 .X ∧
    elegir_movimiento pesosCE2 tabla2 .X (fun l => l.headD 0) = 0 ∧
    rival_tiene_victoria_inmediata (colocar_marca_en_posicion tabla2 .X 0).2 .O = true := by
  decide

/-- C2 witness: concrete instance of the block-dominance theorem on the
board `[_,_,_,O,O,_,_,_,_]` with the genome `⟨1,10,1,1,1,1,1⟩`; the chosen
move is index 5 and it defuses the threat. -/
theorem elegir_movimiento_bloquea_si_peso_bloquear_domina_witness :
    (elegir_movimiento pesosP2 tabla2 .X (fun l => l.headD 0) =
      ↑((fun l : List Nat => l.headD 0) (lista_mejores_movimientos pesosP2 tabla2 .X)) ∧
      rival_tiene_victoria_inmediata (colocar_marca_en_posicion tabla2 .X
        ↑((fun l : List Nat => l.headD 0) (lista_mejores_movimientos pesosP2 tabla2 .X))).2
        (obtener_marca_contraria .X) = false) ∧
    elegir_movimiento pesosP2 tabla2 .X (fun l => l.headD 0) = 5 :=
  ⟨elegir_movimiento_bloquea_si_peso_bloquear_domina.1 pesosP2 tabla2 .X (fun l => l.headD 0) 5
      (by intro clave; cases clave <;> decide) (by decide)
      (by decide) (by decide) (by decide) (by decide) (by decide),
   elegir_movimiento_bloquea_si_peso_bloquear_domina.2 (fun l => l.headD 0) (by decide)⟩

end Triqui
